import Mathlib

/-!
Shallow embedding of the fast-flow core: the Flavor serialization pipeline
(src/unnamed/part_004), the useFlow graph-state operations
(src/unnamed/part_005), the RegisterHelper type registry
(src/src/core/RegisterHelper.ts), and the dagre-based auto-layout wrapper
(src/src/components/Flow.tsx).
-/

/-- Dynamic JavaScript-like values, used for open-ended `data` payloads,
custom top-level fields, and the untyped envelope handled by
`validateData` / `importFromJSON`. -/
inductive JLite where
  | undefined
  | null
  | bool (b : Bool)
  | num (q : Int)
  | str (s : String)
  | arr (elems : List JLite)
  | obj (fields : List (String × JLite))

/-- JavaScript truthiness for the modelled values (`undefined`, `null`,
`false`, `0`, `""` are falsy; objects and arrays are always truthy). -/
def jTruthy : JLite → Bool
  | .undefined => false
  | .null => false
  | .bool b => b
  | .num q => q != 0
  | .str s => s ≠ ""
  | .arr _ => true
  | .obj _ => true

/-- `Array.isArray`. -/
def isArr : JLite → Bool
  | .arr _ => true
  | _ => false

/-- Property access `o.k` on a dynamic value: `undefined` when the key is
missing or the value is not an object. -/
def jGet (v : JLite) (k : String) : JLite :=
  match v with
  | .obj fields =>
    match fields.lookup k with
    | some w => w
    | none => .undefined
  | _ => .undefined

/-- Equality test of a dynamic value against a given string, mirroring the
strict comparison `v !== someString` (negated): true exactly when `v` is that
string. -/
def jIsStr (v : JLite) (s : String) : Bool :=
  match v with
  | .str t => t == s
  | _ => false

/-- JavaScript object spread `\x7b...a, ...b\x7d`: fields of `b` take
precedence over fields of `a`.  Putting `b` first makes `List.lookup` (first
match wins) return the overriding value. -/
def jsSpread (a b : List (String × JLite)) : List (String × JLite) :=
  b ++ a

/-- 2D position `\x7bx, y\x7d`.  JavaScript numbers are modelled as exact
rationals; none of the verified claims depends on floating-point rounding. -/
structure Pos where
  x : ℚ
  y : ℚ
  deriving DecidableEq

/-- In-memory node (the reactflow `Node` shape used throughout the library):
the standard fields are explicit, and `extra` holds the caller-added custom
top-level fields (whose names are, by construction of the record, not among
the eight standard node fields). -/
structure NodeRec where
  id : String
  type : Option String
  position : Pos
  data : List (String × JLite)
  width : Option ℚ
  height : Option ℚ
  selected : Option Bool
  dragging : Option Bool
  extra : List (String × JLite)

/-- Serialized node as emitted by `BaseFlavor.serializeNodes`
(src/unnamed/part_004 lines 23-35): the same shape, but `position` and
`data` may be absent on the wire (deserialization fills defaults). -/
structure SerNode where
  id : String
  type : Option String
  position : Option Pos
  data : Option (List (String × JLite))
  width : Option ℚ
  height : Option ℚ
  selected : Option Bool
  dragging : Option Bool
  extra : List (String × JLite)

/-- Edge (the reactflow `Edge` shape).  `extra` holds caller-added custom
top-level fields.  `BaseFlavor.serializeEdges` emits exactly these fields, so
the same record doubles as the wire shape. -/
structure EdgeRec where
  id : String
  source : String
  target : String
  sourceHandle : Option String
  targetHandle : Option String
  type : Option String
  animated : Option Bool
  style : Option JLite
  data : Option (List (String × JLite))
  extra : List (String × JLite)

/-- The `standardFields` list of `BaseFlavor.extractCustomFields`
(src/unnamed/part_004 lines 121-136) — note it mixes node fields and edge
fields in a single list. -/
def standardFields : List String :=
  ["id", "type", "position", "data", "width", "height", "selected",
   "dragging", "source", "target", "sourceHandle", "targetHandle",
   "animated", "style"]

/-- `BaseFlavor.extractCustomFields`: keep every own key not in
`standardFields`.  In this embedding the explicitly-typed record fields are
all members of `standardFields` and hence always filtered out, so the
function acts on the `extra` association list of custom top-level keys. -/
def extractCustomFields (fields : List (String × JLite)) : List (String × JLite) :=
  fields.filter (fun kv => !(standardFields.contains kv.1))

/-- `BaseFlavor.serializeNodes`, per node (src/unnamed/part_004 lines 23-35):
emit the eight standard node fields plus `extractCustomFields(node)`. -/
def serializeNode (n : NodeRec) : SerNode :=
  { id := n.id
    type := n.type
    position := some n.position
    data := some n.data
    width := n.width
    height := n.height
    selected := n.selected
    dragging := n.dragging
    extra := extractCustomFields n.extra }

def serializeNodes (nodes : List NodeRec) : List SerNode :=
  nodes.map serializeNode

/-- `BaseFlavor.serializeEdges`, per edge (src/unnamed/part_004 lines 42-55):
emit the nine standard edge fields plus `extractCustomFields(edge)`. -/
def serializeEdge (e : EdgeRec) : EdgeRec :=
  { e with extra := extractCustomFields e.extra }

def serializeEdges (edges : List EdgeRec) : List EdgeRec :=
  edges.map serializeEdge

/-- `BaseFlavor.deserializeNodes`, per node (src/unnamed/part_004 lines
62-68): spread the wire node, filling a missing (falsy) `position` with
`\x7bx: 0, y: 0\x7d` and a missing `data` with `\x7b\x7d`.  A present
position or data object is always truthy, so `|| default` reduces to
`Option.getD`. -/
def deserializeNode (s : SerNode) : NodeRec :=
  { id := s.id
    type := s.type
    position := s.position.getD ⟨0, 0⟩
    data := s.data.getD []
    width := s.width
    height := s.height
    selected := s.selected
    dragging := s.dragging
    extra := s.extra }

def deserializeNodes (nodes : List SerNode) : List NodeRec :=
  nodes.map deserializeNode

/-- `BaseFlavor.deserializeEdges`, per edge (src/unnamed/part_004 lines
75-79): a structural passthrough `\x7b...edge\x7d`. -/
def deserializeEdge (e : EdgeRec) : EdgeRec :=
  { e with }

def deserializeEdges (edges : List EdgeRec) : List EdgeRec :=
  edges.map deserializeEdge

/-- `BaseFlavor.transformMetadata` (src/unnamed/part_004 lines 86-92):
`\x7bversion, timestamp, ...metadata\x7d` with caller fields taking
precedence.  `new Date().toISOString()` is an effect of the host platform,
passed in as the `timestamp` argument. -/
def transformMetadata (version timestamp : String)
    (metadata : List (String × JLite)) : List (String × JLite) :=
  jsSpread [("version", .str version), ("timestamp", .str timestamp)] metadata

/-- The envelope produced by `BaseFlavor.export` over typed graphs. -/
structure FlavorEnvelope where
  nodes : List SerNode
  edges : List EdgeRec
  metadata : List (String × JLite)

/-- Version-mismatch warning issued by `validateData` via `console.warn`. -/
inductive VWarn where
  | versionMismatch (current : String) (found : JLite)

/-- `BaseFlavor.validateData` (src/unnamed/part_004 lines 99-114)
specialized to the typed envelope: `nodes` and `edges` are genuine arrays
by construction, so the two `Array.isArray` failure branches are
unreachable and only the version-compatibility warning remains.
(`validateData` over untyped payloads, with its failure branches, is
modelled separately below for the import error-path claims.) -/
def validateDataTyped (version : String) (d : FlavorEnvelope) : List VWarn :=
  let v := (d.metadata.lookup "version").getD .undefined
  if jTruthy v && !(jIsStr v version) then [.versionMismatch version v] else []

/-- `BaseFlavor.export` (src/unnamed/part_004 lines 155-165). -/
def exportGraph (version timestamp : String) (nodes : List NodeRec)
    (edges : List EdgeRec) (metadata : List (String × JLite)) : FlavorEnvelope :=
  { nodes := serializeNodes nodes
    edges := serializeEdges edges
    metadata := transformMetadata version timestamp metadata }

/-- Result of `BaseFlavor.import` together with the warnings emitted by
`validateData`. -/
structure ImportResult where
  nodes : List NodeRec
  edges : List EdgeRec
  warnings : List VWarn

/-- `BaseFlavor.import` (src/unnamed/part_004 lines 172-179) over the typed
envelope (source names `export` and `import` are Lean keywords, hence
`exportGraph` and `importGraph`). -/
def importGraph (version : String) (d : FlavorEnvelope) : ImportResult :=
  { nodes := deserializeNodes d.nodes
    edges := deserializeEdges d.edges
    warnings := validateDataTyped version d }

/-! ### useFlow graph-state operations (src/unnamed/part_005) -/

/-- A reactflow `Connection` as consumed by `useFlow.addEdgeFunc`: it has no
`id` field.  The source dereferences `edge.source!` / `edge.target!`, so the
endpoints are modelled as present strings. -/
structure Connection where
  source : String
  target : String
  sourceHandle : Option String
  targetHandle : Option String

/-- The edge object built by `useFlow.addEdgeFunc` (src/unnamed/part_005
lines 112-121) when the argument carries no `id` field: the id is generated
as `e${edge.source}-${edge.target}`. -/
def edgeOfConnection (c : Connection) : EdgeRec :=
  { id := "e" ++ c.source ++ "-" ++ c.target
    source := c.source
    target := c.target
    sourceHandle := c.sourceHandle
    targetHandle := c.targetHandle
    type := none
    animated := none
    style := none
    data := none
    extra := [] }

/-- The `newEdge` computed by `useFlow.addEdgeFunc` (src/unnamed/part_005
lines 112-121): an argument carrying an id (`'id' in edge`, the sum
discrimination) is taken as-is, an id-less connection gets its id
generated by `edgeOfConnection`. -/
def newEdgeOf : EdgeRec ⊕ Connection → EdgeRec
  | .inl e => e
  | .inr c => edgeOfConnection c

/-- The source id of a candidate argument to `addEdgeFunc`. -/
def candidateSource : EdgeRec ⊕ Connection → String
  | .inl e => e.source
  | .inr c => c.source

/-- The target id of a candidate argument to `addEdgeFunc`. -/
def candidateTarget : EdgeRec ⊕ Connection → String
  | .inl e => e.target
  | .inr c => c.target

/-- `useFlow.addEdgeFunc` (src/unnamed/part_005 lines 109-129): the state
update applied to the edge collection.  The edge is appended
unconditionally — the node collection is not consulted at all. -/
def addEdgeFunc (edge : EdgeRec ⊕ Connection) (eds : List EdgeRec) : List EdgeRec :=
  let newEdge : EdgeRec :=
    match edge with
    | .inl e => e
    | .inr c => edgeOfConnection c
  eds ++ [newEdge]

/-- `useFlow.removeNode` (src/unnamed/part_005 lines 73-90), node part:
`nds.filter((n) => n.id !== nodeId)`. -/
def removeNodeNodes (nodeId : String) (nds : List NodeRec) : List NodeRec :=
  nds.filter (fun n => n.id != nodeId)

/-- `useFlow.removeNode`, edge part:
`eds.filter((e) => e.source !== nodeId && e.target !== nodeId)`. -/
def removeNodeEdges (nodeId : String) (eds : List EdgeRec) : List EdgeRec :=
  eds.filter (fun e => e.source != nodeId && e.target != nodeId)

/-! ### RegisterHelper type registry (src/src/core/RegisterHelper.ts)

The renderer component and the icon are opaque capabilities; they are type
parameters `C` and `I`.  A JavaScript `Map` is an insertion-ordered
association list where `set` overwrites in place. -/

/-- `Map.prototype.has`. -/
def mapHas {α : Type} (m : List (String × α)) (k : String) : Bool :=
  m.any (fun kv => kv.1 == k)

/-- `Map.prototype.set`: overwrite in place when the key exists, else append
(JavaScript Maps keep the original insertion position on overwrite). -/
def mapSet {α : Type} (m : List (String × α)) (k : String) (v : α) :
    List (String × α) :=
  if mapHas m k then m.map (fun kv => if kv.1 == k then (k, v) else kv)
  else m ++ [(k, v)]

/-- `NodeConfig` (src/src/types/index.ts) as stored in `nodeConfigs`. -/
structure NodeConfig (C I : Type) where
  type : String
  component : C
  defaultData : Option (List (String × JLite))
  icon : Option I
  description : Option String

/-- The static state of `RegisterHelper`: the two `Map`s. -/
structure RegState (C I : Type) where
  nodeTypes : List (String × C)
  nodeConfigs : List (String × NodeConfig C I)

/-- `RegisterHelper.register` (src/src/core/RegisterHelper.ts lines 22-41):
warn (via `console.warn`) when the type key is already present, then set
both maps.  The function is total: it never throws.  Returns the new state
together with the list of warnings emitted by this call. -/
def register {C I : Type} (type : String) (component : C)
    (defaultData : Option (List (String × JLite))) (icon : Option I)
    (description : Option String) (st : RegState C I) :
    RegState C I × List String :=
  let warnings :=
    if mapHas st.nodeTypes type then
      ["Node type \"" ++ type ++ "\" is already registered. Overwriting..."]
    else []
  ({ nodeTypes := mapSet st.nodeTypes type component
     nodeConfigs := mapSet st.nodeConfigs type
       ⟨type, component, defaultData, icon, description⟩ }, warnings)

/-- `RegisterHelper.getComponent` (the renderer lookup). -/
def getComponent {C I : Type} (type : String) (st : RegState C I) : Option C :=
  st.nodeTypes.lookup type

/-! ### Auto layout (src/src/components/Flow.tsx, getLayoutedElements)

The dagre library is an external collaborator: it is modelled as a
deterministic oracle from the graph handed to it (configuration, the node
boxes as set by `setNode`, the edges as set by `setEdge`) to a center
position per node id.  Everything the wrapper computes around that call is
embedded from the source. -/

/-- The dagre graph configuration set by `setGraph`
(src/src/components/Flow.tsx lines 94-100). -/
structure DagreConfig where
  rankdir : String
  nodesep : ℚ
  ranksep : ℚ
  marginx : ℚ
  marginy : ℚ
  deriving DecidableEq

def flowDagreConfig (direction : String) : DagreConfig :=
  { rankdir := direction, nodesep := 80, ranksep := 150
    marginx := 20, marginy := 20 }

/-- `.length` of a dynamic value: strings and arrays have one, everything
else yields `undefined` (and `undefined > 10` is false). -/
def jLength : JLite → Option Nat
  | .str s => some s.length
  | .arr xs => some xs.length
  | _ => none

/-- The effective width/height of a node for layout
(src/src/components/Flow.tsx lines 103-128): actual rendered footprint plus
20px padding when available, otherwise estimated from
`node.data.label?.length > 10` and `node.data.collapsed || false`. -/
def nodeDims (getDimensions : String → Option (ℚ × ℚ)) (n : NodeRec) : ℚ × ℚ :=
  match getDimensions n.id with
  | some (w, h) => (w + 20, h + 20)
  | none =>
    let labelLong : Bool :=
      match jLength ((n.data.lookup "label").getD .undefined) with
      | some len => len > 10
      | none => false
    let nodeWidth : ℚ := if labelLong then 280 else 180
    let isCollapsed := jTruthy ((n.data.lookup "collapsed").getD .undefined)
    let contentHeight : ℚ := if isCollapsed then 0 else 80
    (nodeWidth, 40 + contentHeight)

/-- The dagre graph as populated by the wrapper: configuration, one
`setNode(id, \x7bwidth, height\x7d)` per node, one
`setEdge(source, target)` per edge. -/
structure DagreInput where
  cfg : DagreConfig
  nodes : List (String × (ℚ × ℚ))
  edges : List (String × String)

def buildDagreInput (nodes : List NodeRec) (edges : List EdgeRec)
    (direction : String) (getDimensions : String → Option (ℚ × ℚ)) :
    DagreInput :=
  { cfg := flowDagreConfig direction
    nodes := nodes.map (fun n => (n.id, nodeDims getDimensions n))
    edges := edges.map (fun e => (e.source, e.target)) }

/-- The `width`/`height` stored in the dagre graph for an id, as read back
by `dagreGraph.node(node.id)`: the last `setNode` for that id wins.  The
`(0, 0)` default is unreachable for ids of nodes in the input list. -/
def storedDims (input : DagreInput) (id : String) : ℚ × ℚ :=
  match (input.nodes.filter (fun t => t.1 == id)).getLast? with
  | some t => t.2
  | none => (0, 0)

/-- The body of the `nodes.map` in `getLayoutedElements`
(src/src/components/Flow.tsx lines 142-155): copy the node, overwriting
only `position` with the dagre center converted to a top-left corner
(`x - width/2`, `y - height/2`). -/
def layoutNode (input : DagreInput) (dagre : DagreInput → String → ℚ × ℚ)
    (n : NodeRec) : NodeRec :=
  { n with
      position :=
        ⟨(dagre input n.id).1 - (storedDims input n.id).1 / 2,
         (dagre input n.id).2 - (storedDims input n.id).2 / 2⟩ }

/-- `getLayoutedElements` (src/src/components/Flow.tsx lines 85-158):
build the dagre graph, run the layout, then map every node through
`layoutNode`; the input `edges` are returned as-is. -/
def getLayoutedElements (nodes : List NodeRec) (edges : List EdgeRec)
    (direction : String) (getDimensions : String → Option (ℚ × ℚ))
    (dagre : DagreInput → String → ℚ × ℚ) : List NodeRec × List EdgeRec :=
  (nodes.map (layoutNode (buildDagreInput nodes edges direction getDimensions) dagre),
   edges)

/-! ### Untyped Flavor import path (src/unnamed/part_004)

`validateData` and `importFromJSON` face untyped payloads, so they are
modelled over `JLite` values.  Error objects thrown by the source are
modelled by constructors carrying the distinguishing content of their
messages. -/

/-- The errors thrown along the import path:
`formatNodes` = `Error("Invalid data format: nodes must be an array")`,
`formatEdges` = `Error("Invalid data format: edges must be an array")`,
`badJSON msg` = the SyntaxError thrown by the host `JSON.parse`,
`parseFailed inner` = `` Error(`Failed to parse JSON: ${error}`) ``
re-thrown by `importFromJSON` around the inner error. -/
inductive FlavorErr where
  | formatNodes
  | formatEdges
  | badJSON (msg : String)
  | parseFailed (inner : FlavorErr)
  deriving DecidableEq

/-- A `FormatError` in the sense of the specification: one of the two
structural-validation errors of `validateData`. -/
def isFormatError : FlavorErr → Bool
  | .formatNodes => true
  | .formatEdges => true
  | _ => false

/-- A `ParseError` in the sense of the specification: the
`Failed to parse JSON` error thrown by `importFromJSON`. -/
def isParseError : FlavorErr → Bool
  | .parseFailed _ => true
  | _ => false

/-- `BaseFlavor.validateData` (src/unnamed/part_004 lines 99-114) over an
untyped payload: fail when `!data.nodes || !Array.isArray(data.nodes)`,
then the same for `edges`; otherwise warn (only) when
`data.metadata?.version` is truthy and differs from the configured
version.  (Optional chaining on a non-object yields `undefined`, which is
what `jGet` returns there.) -/
def validateData (version : String) (d : JLite) : Except FlavorErr (List VWarn) :=
  if !(jTruthy (jGet d "nodes")) || !(isArr (jGet d "nodes")) then
    .error .formatNodes
  else if !(jTruthy (jGet d "edges")) || !(isArr (jGet d "edges")) then
    .error .formatEdges
  else
    let v := jGet (jGet d "metadata") "version"
    if jTruthy v && !(jIsStr v version) then .ok [.versionMismatch version v]
    else .ok []

/-- `BaseFlavor.deserializeNodes` on an untyped wire node:
`\x7b...node, position: node.position || \x7bx:0,y:0\x7d, data: node.data
|| \x7b\x7d\x7d`. -/
def deserializeNodeDyn (v : JLite) : JLite :=
  let fields := match v with | .obj fs => fs | _ => []
  .obj (jsSpread fields
    [("position",
      if jTruthy (jGet v "position") then jGet v "position"
      else .obj [("x", .num 0), ("y", .num 0)]),
     ("data", if jTruthy (jGet v "data") then jGet v "data" else .obj [])])

/-- `deserializeNodes` over the raw `nodes` value; only ever applied to an
array (`validateData` ran first). -/
def deserializeNodesDyn : JLite → JLite
  | .arr xs => .arr (xs.map deserializeNodeDyn)
  | v => v

/-- `BaseFlavor.deserializeEdges` on an untyped wire edge: `\x7b...edge\x7d`. -/
def deserializeEdgeDyn (v : JLite) : JLite :=
  .obj (match v with | .obj fs => fs | _ => [])

def deserializeEdgesDyn : JLite → JLite
  | .arr xs => .arr (xs.map deserializeEdgeDyn)
  | v => v

/-- Result of `BaseFlavor.import` on an untyped payload, with the warnings
emitted by `validateData`. -/
structure ImportedDyn where
  nodes : JLite
  edges : JLite
  warnings : List VWarn

/-- `BaseFlavor.import` (src/unnamed/part_004 lines 172-179) on an untyped
payload: validate first (fail fast), then deserialize nodes and edges. -/
def importData (version : String) (d : JLite) : Except FlavorErr ImportedDyn := do
  let ws ← validateData version d
  pure { nodes := deserializeNodesDyn (jGet d "nodes")
         edges := deserializeEdgesDyn (jGet d "edges")
         warnings := ws }

/-- `BaseFlavor.importFromJSON` (src/unnamed/part_004 lines 198-205).  The
host `JSON.parse` is an external collaborator, passed as the `parseJSON`
oracle.  The try block wraps BOTH the parse and `this.import(data)`, so any
error from either — including the structural FormatError raised by
`validateData` — is caught and re-thrown as
`` Error(`Failed to parse JSON: ${error}`) ``. -/
def importFromJSON (version : String)
    (parseJSON : String → Except String JLite) (json : String) :
    Except FlavorErr ImportedDyn :=
  match parseJSON json with
  | .error msg => .error (.parseFailed (.badJSON msg))
  | .ok data =>
    match importData version data with
    | .error e => .error (.parseFailed e)
    | .ok r => .ok r

/-! ### Concrete inputs used by witnesses and counterexamples -/

/-- A minimal node with the given id. -/
def mkNode (id : String) : NodeRec :=
  { id := id, type := some "baseNode", position := ⟨0, 0⟩
    data := [("label", .str id)], width := none, height := none
    selected := none, dragging := none, extra := [] }

/-- A minimal edge with the given id and endpoints. -/
def mkEdge (id source target : String) : EdgeRec :=
  { id := id, source := source, target := target
    sourceHandle := none, targetHandle := none, type := none
    animated := none, style := none, data := none, extra := [] }

/-- A node carrying a caller-added custom top-level field named `source` —
a name that is not one of the eight standard serialized node fields, but IS
in the shared `standardFields` list of `extractCustomFields`. -/
def c3Node : NodeRec :=
  { id := "n1", type := some "baseNode", position := ⟨0, 0⟩
    data := [("label", .str "A")], width := none, height := none
    selected := none, dragging := none
    extra := [("source", .str "backend-origin")] }

/-- A node carrying a custom top-level field whose name avoids the whole
`standardFields` list. -/
def c3wNode : NodeRec :=
  { id := "n2", type := none, position := ⟨1, 2⟩
    data := [], width := none, height := none
    selected := none, dragging := none
    extra := [("note", .str "keep")] }

/-- A one-node graph that does not contain a node with id `missing`. -/
def c2Nodes : List NodeRec := [mkNode "1"]

/-- A candidate connection whose source id matches no existing node. -/
def c2Conn : Connection :=
  { source := "missing", target := "1", sourceHandle := none, targetHandle := none }

/-- A connection without an id field, used twice in succession. -/
def c10Conn : Connection :=
  { source := "1", target := "2", sourceHandle := none, targetHandle := none }

/-- An envelope whose `nodes` field is not a sequence (`nodes: 5`). -/
def c5BadNodes : JLite := .obj [("nodes", .num 5), ("edges", .arr [])]

/-- An envelope with proper sequences but a mismatching metadata version. -/
def c5Mismatch : JLite :=
  .obj [("nodes", .arr []), ("edges", .arr []),
        ("metadata", .obj [("version", .str "2.0.0")])]

/-- An envelope that is valid JSON text but violates structure
(`nodes: 5`). -/
def c6Envelope : JLite := .obj [("nodes", .num 5), ("edges", .arr [])]

/-- `JSON.parse` on the textually well-formed payload
`\x7b"nodes": 5, "edges": []\x7d`: parsing succeeds with `c6Envelope`. -/
def c6ParseOk : String → Except String JLite := fun _ => .ok c6Envelope

/-- `JSON.parse` on a malformed textual payload: parsing fails with a
SyntaxError. -/
def c6ParseBad : String → Except String JLite :=
  fun _ => .error "SyntaxError: Unexpected token x in JSON at position 0"

/-! ## Theorems -/

/-- Arrays are truthy. -/
lemma jTruthy_of_isArr {v : JLite} (h : isArr v = true) : jTruthy v = true := by
  cases v <;> simp_all [isArr, jTruthy]

/-- C1: for every list of nodes and edges, importing the result of exporting
them through the default pipeline preserves each node's id, type, position
and entire data mapping (hence every key of it), and each edge's id, source
and target. -/
theorem c1_export_import_roundtrip (version timestamp : String)
    (nodes : List NodeRec) (edges : List EdgeRec)
    (metadata : List (String × JLite)) :
    List.Forall₂
      (fun n n' => n'.id = n.id ∧ n'.type = n.type ∧
        n'.position = n.position ∧ n'.data = n.data)
      nodes
      (importGraph version (exportGraph version timestamp nodes edges metadata)).nodes
    ∧ List.Forall₂
      (fun e e' => e'.id = e.id ∧ e'.source = e.source ∧ e'.target = e.target)
      edges
      (importGraph version (exportGraph version timestamp nodes edges metadata)).edges := by
  constructor
  · show List.Forall₂ _ nodes ((nodes.map serializeNode).map deserializeNode)
    rw [List.map_map, List.forall₂_map_right_iff]
    refine List.forall₂_same.mpr (fun n _ => ?_)
    refine ⟨rfl, rfl, ?_, ?_⟩ <;> simp [deserializeNode, serializeNode]
  · show List.Forall₂ _ edges ((edges.map serializeEdge).map deserializeEdge)
    rw [List.map_map, List.forall₂_map_right_iff]
    exact List.forall₂_same.mpr (fun e _ => ⟨rfl, rfl, rfl⟩)

/-- C3 counterexample: `c3Node` carries the caller-added custom top-level
field `source`, whose name is not one of the eight standard serialized node
fields, yet the default `serializeNodes` does not emit it — the shared
`standardFields` list of `extractCustomFields` also contains the edge field
names, so the field is dropped. -/
theorem c3_counterexample :
    c3Node.extra = [("source", JLite.str "backend-origin")]
    ∧ (serializeNodes [c3Node]).map SerNode.extra = [[]] :=
  ⟨rfl, rfl⟩

/-- C3 amended: a caller-added custom top-level field survives
`serializeNodes` (and hence the export-then-import round trip) exactly when
its name avoids the WHOLE shared `standardFields` list — which also contains
the edge field names source, target, sourceHandle, targetHandle, animated
and style — not merely the eight standard node fields. -/
theorem c3_amended_custom_field_passthrough (n : NodeRec) (k : String)
    (v : JLite) (hmem : (k, v) ∈ n.extra)
    (hstd : standardFields.contains k = false) :
    (k, v) ∈ (serializeNode n).extra
    ∧ (k, v) ∈ (deserializeNode (serializeNode n)).extra := by
  have h1 : (k, v) ∈ (serializeNode n).extra := by
    show (k, v) ∈ extractCustomFields n.extra
    exact List.mem_filter.mpr ⟨hmem, by simpa using hstd⟩
  exact ⟨h1, h1⟩

/-- C3 amended, witness at a concrete node whose custom field name avoids
the whole `standardFields` list. -/
theorem c3_amended_witness :
    ("note", JLite.str "keep") ∈ (serializeNode c3wNode).extra
    ∧ ("note", JLite.str "keep") ∈ (deserializeNode (serializeNode c3wNode)).extra :=
  c3_amended_custom_field_passthrough c3wNode "note" (.str "keep")
    (List.Mem.head _) rfl

/-- C2 counterexample: on the one-node graph `c2Nodes` (which has no node
`missing`), adding the candidate connection `c2Conn` with source `missing`
does not fail — `addEdgeFunc` is total, has no `DanglingEndpointError`, and
the edge collection changes: the dangling edge is silently kept. -/
theorem c2_counterexample :
    "missing" ∉ c2Nodes.map NodeRec.id
    ∧ addEdgeFunc (.inr c2Conn) [] = [edgeOfConnection c2Conn]
    ∧ addEdgeFunc (.inr c2Conn) [] ≠ [] := by
  refine ⟨by decide, rfl, ?_⟩
  simp [addEdgeFunc]

/-- C2 amended: `useFlow.addEdge` performs no endpoint validation — for
every edge collection and every candidate, id-carrying edge or id-less
connection, whose source OR target id matches no existing node, the call
succeeds (no error channel exists) and appends the candidate with its
endpoints unchanged; the dangling edge is silently kept. -/
theorem c2_amended_dangling_edge_kept (nds : List NodeRec)
    (eds : List EdgeRec) (cand : EdgeRec ⊕ Connection)
    (hdangling : candidateSource cand ∉ nds.map NodeRec.id
      ∨ candidateTarget cand ∉ nds.map NodeRec.id) :
    addEdgeFunc cand eds = eds ++ [newEdgeOf cand]
    ∧ newEdgeOf cand ∈ addEdgeFunc cand eds
    ∧ (newEdgeOf cand).source = candidateSource cand
    ∧ (newEdgeOf cand).target = candidateTarget cand := by
  cases cand with
  | inl e => exact ⟨rfl, by simp [addEdgeFunc, newEdgeOf], rfl, rfl⟩
  | inr c => exact ⟨rfl, by simp [addEdgeFunc, newEdgeOf], rfl, rfl⟩

/-- C2 amended, witness: once at an id-less connection whose source
dangles, once at an id-carrying edge whose target dangles, on the one-node
graph `c2Nodes`. -/
theorem c2_amended_witness :
    (addEdgeFunc (.inr c2Conn) [] = [] ++ [newEdgeOf (.inr c2Conn)]
      ∧ newEdgeOf (.inr c2Conn) ∈ addEdgeFunc (.inr c2Conn) []
      ∧ (newEdgeOf (.inr c2Conn)).source = candidateSource (.inr c2Conn)
      ∧ (newEdgeOf (.inr c2Conn)).target = candidateTarget (.inr c2Conn))
    ∧ (addEdgeFunc (.inl (mkEdge "e9" "1" "ghost")) []
        = [] ++ [newEdgeOf (.inl (mkEdge "e9" "1" "ghost"))]
      ∧ newEdgeOf (.inl (mkEdge "e9" "1" "ghost"))
        ∈ addEdgeFunc (.inl (mkEdge "e9" "1" "ghost")) []
      ∧ (newEdgeOf (.inl (mkEdge "e9" "1" "ghost"))).source
        = candidateSource (.inl (mkEdge "e9" "1" "ghost"))
      ∧ (newEdgeOf (.inl (mkEdge "e9" "1" "ghost"))).target
        = candidateTarget (.inl (mkEdge "e9" "1" "ghost"))) :=
  ⟨c2_amended_dangling_edge_kept c2Nodes [] (.inr c2Conn) (Or.inl (by decide)),
   c2_amended_dangling_edge_kept c2Nodes [] (.inl (mkEdge "e9" "1" "ghost"))
     (Or.inr (by decide))⟩

/-- C10: for every connection argument without an id field, the appended
edge's id is exactly `"e" ++ source ++ "-" ++ target`; consequently two
successive such calls with the same source and target leave the collection
with two edges carrying equal ids. -/
theorem c10_generated_edge_id :
    (∀ (eds : List EdgeRec) (c : Connection),
      addEdgeFunc (.inr c) eds = eds ++ [edgeOfConnection c]
      ∧ (edgeOfConnection c).id = "e" ++ c.source ++ "-" ++ c.target)
    ∧ (addEdgeFunc (.inr c10Conn) (addEdgeFunc (.inr c10Conn) [])).map EdgeRec.id
      = ["e1-2", "e1-2"] :=
  ⟨fun _ _ => ⟨rfl, rfl⟩, rfl⟩

/-- C8: removing a node id present in the graph removes every edge whose
source or target is that id (no dangling edge around it remains), keeps
every edge not incident to it, keeps every node with a different id, and
introduces nothing new. -/
theorem c8_removeNode_cascades (nodeId : String) (nds : List NodeRec)
    (eds : List EdgeRec) (hmem : nodeId ∈ nds.map NodeRec.id) :
    (∀ e ∈ removeNodeEdges nodeId eds, e.source ≠ nodeId ∧ e.target ≠ nodeId)
    ∧ (∀ e ∈ eds, e.source ≠ nodeId → e.target ≠ nodeId →
        e ∈ removeNodeEdges nodeId eds)
    ∧ (∀ n ∈ nds, n.id ≠ nodeId → n ∈ removeNodeNodes nodeId nds)
    ∧ (∀ n ∈ removeNodeNodes nodeId nds, n ∈ nds ∧ n.id ≠ nodeId) := by
  refine ⟨?_, ?_, ?_, ?_⟩
  · intro e he
    rw [removeNodeEdges, List.mem_filter] at he
    have h2 := he.2
    rw [Bool.and_eq_true, bne_iff_ne, bne_iff_ne] at h2
    exact h2
  · intro e he hs ht
    rw [removeNodeEdges, List.mem_filter]
    refine ⟨he, ?_⟩
    rw [Bool.and_eq_true, bne_iff_ne, bne_iff_ne]
    exact ⟨hs, ht⟩
  · intro n hn hne
    rw [removeNodeNodes, List.mem_filter]
    exact ⟨hn, bne_iff_ne.mpr hne⟩
  · intro n hn
    rw [removeNodeNodes, List.mem_filter] at hn
    exact ⟨hn.1, bne_iff_ne.mp hn.2⟩

/-- C8, witness on a concrete three-node, two-edge graph: node `1` is
present, and after removing it the non-incident edge `e23` survives. -/
theorem c8_witness :
    "1" ∈ [mkNode "1", mkNode "2", mkNode "3"].map NodeRec.id
    ∧ mkEdge "e23" "2" "3" ∈
      removeNodeEdges "1" [mkEdge "e12" "1" "2", mkEdge "e23" "2" "3"] := by
  have h := c8_removeNode_cascades "1" [mkNode "1", mkNode "2", mkNode "3"]
    [mkEdge "e12" "1" "2", mkEdge "e23" "2" "3"] (by decide)
  exact ⟨by decide,
    h.2.1 (mkEdge "e23" "2" "3") (List.Mem.tail _ (List.Mem.head _))
      (by decide) (by decide)⟩

/-- If a key is absent from the map, every entry key beq-compares false
against it. -/
lemma beq_false_of_mapHas_false {α : Type} {m : List (String × α)} {k : String}
    (h : mapHas m k = false) : ∀ kv ∈ m, (kv.1 == k) = false := by
  intro kv hkv
  cases hb : (kv.1 == k) with
  | false => rfl
  | true =>
    exfalso
    have hany : m.any (fun kv => kv.1 == k) = true :=
      List.any_eq_true.mpr ⟨kv, hkv, hb⟩
    rw [mapHas] at h
    rw [h] at hany
    exact Bool.false_ne_true hany

/-- Looking a key up past a prefix that does not contain it. -/
lemma lookup_append_of_mapHas_false {α : Type} {m : List (String × α)}
    {k : String} (h : mapHas m k = false) (rest : List (String × α)) :
    (m ++ rest).lookup k = rest.lookup k := by
  induction m with
  | nil => rfl
  | cons a t ih =>
    have ha : (a.1 == k) = false := beq_false_of_mapHas_false h a (List.Mem.head _)
    have ht : mapHas t k = false := by
      rw [mapHas] at h ⊢
      rw [List.any_cons] at h
      rcases Bool.or_eq_false_iff.mp h with ⟨_, h2⟩
      exact h2
    have hk : (k == a.1) = false :=
      beq_eq_false_iff_ne.mpr (Ne.symm (beq_eq_false_iff_ne.mp ha))
    cases a with
    | mk a1 a2 =>
      show List.lookup k ((a1, a2) :: (t ++ rest)) = _
      simp only [List.lookup, hk]
      exact ih ht

/-- C4: registering the same type key twice (starting from a state where it
is not yet registered) makes the lookup return the second component, emits
exactly one warning across the two calls, and never raises — `register` is
total and has no failure channel. -/
theorem c4_register_overwrite {C I : Type} (st : RegState C I) (k : String)
    (c1 c2 : C) (dd1 dd2 : Option (List (String × JLite))) (ic1 ic2 : Option I)
    (ds1 ds2 : Option String) (hfresh : mapHas st.nodeTypes k = false)
    (hne : c1 ≠ c2) :
    getComponent k (register k c2 dd2 ic2 ds2 (register k c1 dd1 ic1 ds1 st).1).1
      = some c2
    ∧ (register k c1 dd1 ic1 ds1 st).2.length
      + (register k c2 dd2 ic2 ds2 (register k c1 dd1 ic1 ds1 st).1).2.length
      = 1 := by
  have h1types : (register k c1 dd1 ic1 ds1 st).1.nodeTypes
      = st.nodeTypes ++ [(k, c1)] := by
    simp [register, mapSet, hfresh]
  have h1warn : (register k c1 dd1 ic1 ds1 st).2 = [] := by
    simp [register, hfresh]
  have hhas : mapHas (st.nodeTypes ++ [(k, c1)]) k = true := by
    simp [mapHas]
  have h2types : (register k c2 dd2 ic2 ds2 (register k c1 dd1 ic1 ds1 st).1).1.nodeTypes
      = st.nodeTypes ++ [(k, c2)] := by
    rw [show (register k c2 dd2 ic2 ds2 (register k c1 dd1 ic1 ds1 st).1).1.nodeTypes
        = mapSet (register k c1 dd1 ic1 ds1 st).1.nodeTypes k c2 from rfl]
    rw [h1types]
    rw [mapSet, if_pos hhas]
    rw [List.map_append]
    have hmap : st.nodeTypes.map (fun kv => if kv.1 == k then (k, c2) else kv)
        = st.nodeTypes := by
      have := List.map_congr_left
        (fun kv hkv => by
          simp [beq_false_of_mapHas_false hfresh kv hkv] :
          ∀ kv ∈ st.nodeTypes,
            (fun kv => if kv.1 == k then (k, c2) else kv) kv = id kv)
      rw [this, List.map_id]
    rw [hmap]
    simp
  have h2warn : (register k c2 dd2 ic2 ds2 (register k c1 dd1 ic1 ds1 st).1).2
      = ["Node type \"" ++ k ++ "\" is already registered. Overwriting..."] := by
    rw [show (register k c2 dd2 ic2 ds2 (register k c1 dd1 ic1 ds1 st).1).2
        = (if mapHas (register k c1 dd1 ic1 ds1 st).1.nodeTypes k then
            ["Node type \"" ++ k ++ "\" is already registered. Overwriting..."]
          else []) from rfl]
    rw [h1types, if_pos hhas]
  refine ⟨?_, ?_⟩
  · rw [show getComponent k (register k c2 dd2 ic2 ds2 (register k c1 dd1 ic1 ds1 st).1).1
        = (register k c2 dd2 ic2 ds2 (register k c1 dd1 ic1 ds1 st).1).1.nodeTypes.lookup k
      from rfl]
    rw [h2types, lookup_append_of_mapHas_false hfresh]
    simp [List.lookup]
  · rw [h1warn, h2warn]
    rfl

/-- C4, witness: registering `"a"` twice on the empty registry with the
distinct components `1` and `2`. -/
theorem c4_witness :
    getComponent "a"
      (register "a" 2 none none none
        (register "a" (1 : Nat) none none none
          ({ nodeTypes := [], nodeConfigs := [] } : RegState Nat Unit)).1).1
      = some 2
    ∧ (register "a" (1 : Nat) none none none
        ({ nodeTypes := [], nodeConfigs := [] } : RegState Nat Unit)).2.length
      + (register "a" 2 none none none
          (register "a" (1 : Nat) none none none
            ({ nodeTypes := [], nodeConfigs := [] } : RegState Nat Unit)).1).2.length
      = 1 :=
  c4_register_overwrite { nodeTypes := [], nodeConfigs := [] } "a" 1 2
    none none none none none none rfl (by decide)

/-- C7: the layout wrapper returns the input edges unchanged and exactly
the input nodes with only `position` updated — id, type, data, width,
height, selected, dragging and every custom field are untouched. -/
theorem c7_layout_position_only (nodes : List NodeRec) (edges : List EdgeRec)
    (direction : String) (getDimensions : String → Option (ℚ × ℚ))
    (dagre : DagreInput → String → ℚ × ℚ) :
    (getLayoutedElements nodes edges direction getDimensions dagre).2 = edges
    ∧ List.Forall₂
      (fun n n' => n'.id = n.id ∧ n'.type = n.type ∧ n'.data = n.data
        ∧ n'.width = n.width ∧ n'.height = n.height
        ∧ n'.selected = n.selected ∧ n'.dragging = n.dragging
        ∧ n'.extra = n.extra)
      nodes (getLayoutedElements nodes edges direction getDimensions dagre).1 := by
  refine ⟨rfl, ?_⟩
  show List.Forall₂ _ nodes (nodes.map _)
  rw [List.forall₂_map_right_iff]
  exact List.forall₂_same.mpr
    (fun n _ => ⟨rfl, rfl, rfl, rfl, rfl, rfl, rfl, rfl⟩)

/-- Re-running `layoutNode` with the same dagre graph overwrites `position`
with the same value. -/
lemma layoutNode_layoutNode (input : DagreInput)
    (dagre : DagreInput → String → ℚ × ℚ) (n : NodeRec) :
    layoutNode input dagre (layoutNode input dagre n) = layoutNode input dagre n :=
  rfl

/-- The dagre graph built from laid-out nodes equals the one built from the
original nodes: the node boxes depend only on each node's `id` and `data`,
neither of which `layoutNode` changes, and the edges are passed through. -/
lemma buildDagreInput_map_layoutNode (nodes : List NodeRec)
    (edges : List EdgeRec) (direction : String)
    (getDimensions : String → Option (ℚ × ℚ)) (input : DagreInput)
    (dagre : DagreInput → String → ℚ × ℚ) :
    buildDagreInput (nodes.map (layoutNode input dagre)) edges direction getDimensions
      = buildDagreInput nodes edges direction getDimensions := by
  unfold buildDagreInput
  rw [List.map_map]
  congr 1

/-- C9: running the layout a second time on the output of the first run,
with the same direction and the same footprint oracle, returns the first
run's output unchanged — in particular no node's position changes. -/
theorem c9_layout_idempotent (nodes : List NodeRec) (edges : List EdgeRec)
    (direction : String) (getDimensions : String → Option (ℚ × ℚ))
    (dagre : DagreInput → String → ℚ × ℚ) :
    getLayoutedElements (getLayoutedElements nodes edges direction getDimensions dagre).1
        edges direction getDimensions dagre
      = getLayoutedElements nodes edges direction getDimensions dagre := by
  show ((nodes.map (layoutNode (buildDagreInput nodes edges direction getDimensions) dagre)).map
      (layoutNode
        (buildDagreInput
          (nodes.map (layoutNode (buildDagreInput nodes edges direction getDimensions) dagre))
          edges direction getDimensions)
        dagre),
      edges)
    = (nodes.map (layoutNode (buildDagreInput nodes edges direction getDimensions) dagre),
      edges)
  rw [buildDagreInput_map_layoutNode, List.map_map]
  exact congrArg (fun l => (l, edges))
    (List.map_congr_left fun n _ =>
      layoutNode_layoutNode (buildDagreInput nodes edges direction getDimensions) dagre n)

/-- C5: `validateData` fails exactly when the `nodes` field or the `edges`
field is not a sequence, the error reports which of the two was invalid
(`nodes` is checked first), and when both are sequences a metadata version
mismatch never fails — it only produces a warning and validation succeeds. -/
theorem c5_validate_semantics (version : String) (d : JLite) :
    (isArr (jGet d "nodes") = false →
      validateData version d = .error .formatNodes)
    ∧ (isArr (jGet d "nodes") = true → isArr (jGet d "edges") = false →
      validateData version d = .error .formatEdges)
    ∧ (isArr (jGet d "nodes") = true → isArr (jGet d "edges") = true →
      ∃ ws, validateData version d = .ok ws)
    ∧ (isArr (jGet d "nodes") = true → isArr (jGet d "edges") = true →
      jTruthy (jGet (jGet d "metadata") "version") = true →
      jIsStr (jGet (jGet d "metadata") "version") version = false →
      validateData version d
        = .ok [.versionMismatch version (jGet (jGet d "metadata") "version")]) := by
  refine ⟨?_, ?_, ?_, ?_⟩
  · intro h
    simp [validateData, h]
  · intro h1 h2
    simp [validateData, h1, h2, jTruthy_of_isArr h1]
  · intro h1 h2
    by_cases hc : (jTruthy (jGet (jGet d "metadata") "version")
        && !(jIsStr (jGet (jGet d "metadata") "version") version)) = true
    · exact ⟨[.versionMismatch version (jGet (jGet d "metadata") "version")],
        by simp [validateData, h1, h2, jTruthy_of_isArr h1, jTruthy_of_isArr h2, hc]⟩
    · exact ⟨[],
        by simp [validateData, h1, h2, jTruthy_of_isArr h1, jTruthy_of_isArr h2, hc]⟩
  · intro h1 h2 h3 h4
    simp [validateData, h1, h2, jTruthy_of_isArr h1, jTruthy_of_isArr h2, h3, h4]

/-- C5, witness: an envelope whose `nodes` is the number `5` fails with the
nodes-specific FormatError, and an envelope with proper sequences but
version `2.0.0` against a `1.0.0` pipeline validates successfully with the
mismatch warning. -/
theorem c5_witness :
    validateData "1.0.0" c5BadNodes = .error .formatNodes
    ∧ validateData "1.0.0" c5Mismatch
      = .ok [.versionMismatch "1.0.0" (JLite.str "2.0.0")] := by
  constructor
  · exact (c5_validate_semantics "1.0.0" c5BadNodes).1 rfl
  · exact (c5_validate_semantics "1.0.0" c5Mismatch).2.2.2 rfl rfl rfl rfl

/-- C6 counterexample: the textually well-formed payload
`\x7b"nodes": 5, "edges": []\x7d` parses fine but violates structure; its
textual import does NOT surface the FormatError — `importFromJSON` catches it and
re-throws it wrapped as the `Failed to parse JSON` ParseError. -/
theorem c6_counterexample :
    importFromJSON "1.0.0" c6ParseOk "\x7b\"nodes\": 5, \"edges\": []\x7d"
      = .error (.parseFailed .formatNodes)
    ∧ isParseError (.parseFailed .formatNodes) = true
    ∧ isFormatError (.parseFailed .formatNodes) = false :=
  ⟨rfl, rfl, rfl⟩

/-- C6 amended: a malformed textual payload fails with the ParseError; but a
textually well-formed payload whose envelope violates structure does not
fail with a bare FormatError — the try block of `importFromJSON` wraps both
the parse and the import, so the FormatError raised by `validateData` (and
any other import error) is re-thrown wrapped inside the ParseError. -/
theorem c6_amended_import_errors (version : String)
    (parseJSON : String → Except String JLite) (json : String) :
    (∀ msg, parseJSON json = .error msg →
      importFromJSON version parseJSON json = .error (.parseFailed (.badJSON msg)))
    ∧ (∀ v, parseJSON json = .ok v → isArr (jGet v "nodes") = false →
      importFromJSON version parseJSON json = .error (.parseFailed .formatNodes))
    ∧ (∀ v e, parseJSON json = .ok v → importData version v = .error e →
      importFromJSON version parseJSON json = .error (.parseFailed e)) := by
  refine ⟨?_, ?_, ?_⟩
  · intro msg h
    simp [importFromJSON, h]
  · intro v h hn
    simp [importFromJSON, h, importData, validateData, hn]
  · intro v e h hi
    simp [importFromJSON, h, hi]

/-- C6 amended, witness: a malformed payload under the failing parse oracle,
and the structurally invalid but parseable payload. -/
theorem c6_amended_witness :
    importFromJSON "1.0.0" c6ParseBad "not json"
      = .error (.parseFailed (.badJSON
          "SyntaxError: Unexpected token x in JSON at position 0"))
    ∧ importFromJSON "1.0.0" c6ParseOk "\x7b\"nodes\": 5\x7d"
      = .error (.parseFailed .formatNodes) := by
  constructor
  · exact (c6_amended_import_errors "1.0.0" c6ParseBad "not json").1 _ rfl
  · exact (c6_amended_import_errors "1.0.0" c6ParseOk
      "\x7b\"nodes\": 5\x7d").2.1 c6Envelope rfl rfl
